import Mathlib

/-!
Shallow embedding of the input-translation and render-surface logic of the
`egui-wgpu-example-smithay` repository (the iced backend:
`src/iced/iced_input_handler.rs` and `src/iced/iced_containers.rs`,
together with the window/layer/popup/subsurface container adapters).

Machine integers: `u32` values are modelled as `Nat` (with an explicit
two's-complement wrap where the source performs an `as u32` cast of an
`i32`), `i32` values as `Int`.  Floating-point coordinates are modelled as
`Int`: the source never performs arithmetic on them, it only stores and
forwards them, so the carrier type is irrelevant to every property proved
here.  External handles (Wayland objects, the GPU device/surface, the
system clipboard, `Instant` timestamps) either do not influence the logic
under proof or are modelled as explicit outputs (`RenderOut`).
-/

namespace EguiSmithay

/-- Wayland keysym, mirroring `smithay_client_toolkit::seat::keyboard::Keysym`.
The Rust type is an open newtype over `u32` with named constants; the named
constants that appear in the source's match tables are constructors here, and
`other n` stands for every remaining raw keysym value (the `_` arms). -/
inductive Keysym where
  | BackSpace | Tab | Clear | Return | Pause | Scroll_Lock | Sys_Req | Escape | Delete
  | Multi_key | Codeinput | SingleCandidate | MultipleCandidate | PreviousCandidate
  | Kanji | Muhenkan | Henkan_Mode | Romaji | Hiragana | Katakana | Hiragana_Katakana
  | Zenkaku | Hankaku | Zenkaku_Hankaku | Kana_Lock | Kana_Shift | Eisu_Shift | Eisu_toggle
  | Home | Left | Up | Right | Down | Page_Up | Page_Down | End
  | Select | Print | Execute | Insert | Undo | Redo | Menu | Find | Cancel | Help
  | Break | Mode_switch | Num_Lock
  | KP_Tab | KP_Enter | KP_F1 | KP_F2 | KP_F3 | KP_F4
  | KP_Home | KP_Left | KP_Up | KP_Right | KP_Down | KP_Page_Up | KP_Page_Down | KP_End
  | KP_Begin | KP_Insert | KP_Delete | KP_Equal | KP_Multiply | KP_Add | KP_Separator
  | KP_Subtract | KP_Decimal | KP_Divide | KP_Space
  | KP_0 | KP_1 | KP_2 | KP_3 | KP_4 | KP_5 | KP_6 | KP_7 | KP_8 | KP_9
  | F1 | F2 | F3 | F4 | F5 | F6 | F7 | F8 | F9 | F10 | F11 | F12
  | F13 | F14 | F15 | F16 | F17 | F18 | F19 | F20 | F21 | F22 | F23 | F24
  | F25 | F26 | F27 | F28 | F29 | F30 | F31 | F32 | F33 | F34 | F35
  | Shift_L | Shift_R | Control_L | Control_R | Caps_Lock | Alt_L | Alt_R
  | Super_L | Super_R | Hyper_L | Hyper_R
  | ISO_Level3_Shift | ISO_Level3_Latch | ISO_Level3_Lock
  | ISO_Next_Group | ISO_Prev_Group | ISO_First_Group | ISO_Last_Group
  | ISO_Left_Tab | ISO_Enter
  | _3270_EraseEOF | _3270_Attn | _3270_Play | _3270_ExSelect | _3270_CursorSelect
  | _3270_PrintScreen | _3270_Enter
  | space
  | XF86_MonBrightnessUp | XF86_MonBrightnessDown | XF86_Standby
  | XF86_AudioLowerVolume | XF86_AudioRaiseVolume | XF86_AudioPlay | XF86_AudioStop
  | XF86_AudioPrev | XF86_AudioNext | XF86_HomePage | XF86_Mail | XF86_Search
  | XF86_AudioRecord | XF86_Calculator | XF86_Calendar | XF86_PowerDown
  | XF86_Back | XF86_Forward | XF86_Refresh | XF86_PowerOff | XF86_WakeUp | XF86_Eject
  | XF86_ScreenSaver | XF86_WWW | XF86_Sleep | XF86_Favorites | XF86_AudioPause
  | XF86_MyComputer | XF86_AudioRewind | XF86_Calculater | XF86_Close
  | XF86_Copy | XF86_Cut | XF86_Excel | XF86_LogOff | XF86_MySites | XF86_New
  | XF86_Open | XF86_Paste | XF86_Phone | XF86_Reply | XF86_Reload | XF86_Save
  | XF86_Send | XF86_Spell | XF86_SplitScreen | XF86_Video | XF86_Word
  | XF86_ZoomIn | XF86_ZoomOut | XF86_WebCam | XF86_MailForward | XF86_Music
  | XF86_AudioForward | XF86_AudioRandomPlay | XF86_Subtitle | XF86_AudioCycleTrack
  | XF86_Suspend | XF86_Hibernate | XF86_AudioMute | XF86_Next_VMode | XF86_Stop
  | SUN_Copy | SUN_Open | SUN_Paste | SUN_Cut | SUN_AudioLowerVolume | SUN_AudioMute
  | SUN_AudioRaiseVolume | SUN_VideoLowerBrightness | SUN_VideoRaiseBrightness
  | _0 | _1 | _2 | _3 | _4 | _5 | _6 | _7 | _8 | _9
  | a | b | c | d | e | f | g | h | i | j | k | l | m
  | n | o | p | q | r | s | t | u | v | w | x | y | z
  | A | B | C | D | E | F | G | H | I | J | K | L | M
  | N | O | P | Q | R | S | T | U | V | W | X | Y | Z
  | grave | minus | equal | bracketleft | bracketright | backslash | semicolon
  | apostrophe | comma | period | slash
  | other (code : Nat)

/-- `iced::keyboard::key::Named` — the named logical keys the source maps to. -/
inductive Named where
  | Backspace | Tab | Clear | Enter | Pause | ScrollLock | PrintScreen | Escape | Delete
  | Compose | CodeInput | SingleCandidate | AllCandidates | PreviousCandidate
  | KanjiMode | NonConvert | Convert | Romaji | Hiragana | HiraganaKatakana
  | Zenkaku | Hankaku | ZenkakuHankaku | KanaMode | Alphanumeric
  | Home | ArrowLeft | ArrowUp | ArrowRight | ArrowDown | PageUp | PageDown | End
  | Select | Execute | Insert | Undo | Redo | ContextMenu | Find | Cancel | Help
  | ModeChange | NumLock
  | F1 | F2 | F3 | F4 | F5 | F6 | F7 | F8 | F9 | F10 | F11 | F12
  | F13 | F14 | F15 | F16 | F17 | F18 | F19 | F20 | F21 | F22 | F23 | F24
  | F25 | F26 | F27 | F28 | F29 | F30 | F31 | F32 | F33 | F34 | F35
  | Shift | Control | CapsLock | Alt | Super | Hyper | AltGraph
  | GroupNext | GroupPrevious | GroupFirst | GroupLast
  | EraseEof | Attn | Play | ExSel | CrSel
  | Space
  | BrightnessUp | BrightnessDown | Standby
  | AudioVolumeDown | AudioVolumeUp | AudioVolumeMute
  | MediaPlay | MediaStop | MediaTrackPrevious | MediaTrackNext | MediaRecord
  | MediaPause | MediaRewind | MediaFastForward | MediaAudioTrack
  | BrowserHome | BrowserSearch | BrowserBack | BrowserForward | BrowserRefresh
  | BrowserFavorites
  | LaunchMail | LaunchApplication1 | LaunchApplication2 | LaunchCalendar
  | LaunchScreenSaver | LaunchWebBrowser | LaunchSpreadsheet | LaunchPhone
  | LaunchMediaPlayer | LaunchWordProcessor | LaunchWebCam | LaunchMusicPlayer
  | Power | WakeUp | Eject | Close | Copy | Cut | Paste | LogOff | New | Open
  | MailReply | Save | MailSend | SpellCheck | SplitScreenToggle
  | ZoomIn | ZoomOut | MailForward | RandomToggle | Subtitle | Hibernate | VideoModeNext

/-- `iced::keyboard::Key` — logical key identity. -/
inductive Key where
  | Named (n : Named)
  | Character (s : String)
  | Unidentified

/-- `iced::keyboard::Location`. -/
inductive Location where
  | Standard | Left | Right | Numpad

/-- `iced::keyboard::key::Code` — physical key codes the source maps to. -/
inductive Code where
  | Digit0 | Digit1 | Digit2 | Digit3 | Digit4 | Digit5 | Digit6 | Digit7 | Digit8 | Digit9
  | KeyA | KeyB | KeyC | KeyD | KeyE | KeyF | KeyG | KeyH | KeyI | KeyJ | KeyK | KeyL | KeyM
  | KeyN | KeyO | KeyP | KeyQ | KeyR | KeyS | KeyT | KeyU | KeyV | KeyW | KeyX | KeyY | KeyZ
  | Backquote | Minus | Equal | BracketLeft | BracketRight | Backslash | Semicolon
  | Quote | Comma | Period | Slash
  | Space | Tab | Enter | Backspace | Delete | Escape
  | ShiftLeft | ShiftRight | ControlLeft | ControlRight | AltLeft | AltRight
  | SuperLeft | SuperRight | CapsLock | NumLock | ScrollLock
  | Home | End | PageUp | PageDown | ArrowLeft | ArrowRight | ArrowUp | ArrowDown
  | Insert | PrintScreen
  | F1 | F2 | F3 | F4 | F5 | F6 | F7 | F8 | F9 | F10 | F11 | F12
  | F13 | F14 | F15 | F16 | F17 | F18 | F19 | F20 | F21 | F22 | F23 | F24
  | F25 | F26 | F27 | F28 | F29 | F30 | F31 | F32 | F33 | F34 | F35
  | Numpad0 | Numpad1 | Numpad2 | Numpad3 | Numpad4 | Numpad5 | Numpad6 | Numpad7
  | Numpad8 | Numpad9 | NumpadDecimal | NumpadDivide | NumpadMultiply | NumpadSubtract
  | NumpadAdd | NumpadEnter | NumpadEqual
  | Pause
  | AudioVolumeMute | AudioVolumeDown | AudioVolumeUp | MediaPlayPause | MediaStop
  | MediaTrackPrevious | MediaTrackNext
  | BrowserBack | BrowserForward | BrowserRefresh | BrowserStop | BrowserSearch
  | BrowserHome | BrowserFavorites
  | Power | Sleep | WakeUp
  | LaunchApp1 | LaunchApp2 | LaunchMail | MediaSelect
  | Copy | Cut | Paste
  | Convert | NonConvert | Lang2 | Lang3 | Lang4
  | ContextMenu

/-- `iced::keyboard::key::NativeCode` (only the `Xkb` variant is produced). -/
inductive NativeCode where
  | Xkb (raw : Nat)

/-- `iced::keyboard::key::Physical`. -/
inductive Physical where
  | Code (c : Code)
  | Unidentified (n : NativeCode)

/-- `keysym_to_iced_key` (src/iced/iced_input_handler.rs:196-431): the static
logical-key table; every keysym outside the table maps to `Key.Unidentified`. -/
def keysym_to_iced_key (keysym : Keysym) : Key :=
  match keysym with
  | .BackSpace => .Named .Backspace
  | .Tab => .Named .Tab
  | .Clear => .Named .Clear
  | .Return => .Named .Enter
  | .Pause => .Named .Pause
  | .Scroll_Lock => .Named .ScrollLock
  | .Sys_Req => .Named .PrintScreen
  | .Escape => .Named .Escape
  | .Delete => .Named .Delete
  | .Multi_key => .Named .Compose
  | .Codeinput => .Named .CodeInput
  | .SingleCandidate => .Named .SingleCandidate
  | .MultipleCandidate => .Named .AllCandidates
  | .PreviousCandidate => .Named .PreviousCandidate
  | .Kanji => .Named .KanjiMode
  | .Muhenkan => .Named .NonConvert
  | .Henkan_Mode => .Named .Convert
  | .Romaji => .Named .Romaji
  | .Hiragana => .Named .Hiragana
  | .Hiragana_Katakana => .Named .HiraganaKatakana
  | .Zenkaku => .Named .Zenkaku
  | .Hankaku => .Named .Hankaku
  | .Zenkaku_Hankaku => .Named .ZenkakuHankaku
  | .Kana_Lock => .Named .KanaMode
  | .Kana_Shift => .Named .KanaMode
  | .Eisu_Shift => .Named .Alphanumeric
  | .Eisu_toggle => .Named .Alphanumeric
  | .Home => .Named .Home
  | .Left => .Named .ArrowLeft
  | .Up => .Named .ArrowUp
  | .Right => .Named .ArrowRight
  | .Down => .Named .ArrowDown
  | .Page_Up => .Named .PageUp
  | .Page_Down => .Named .PageDown
  | .End => .Named .End
  | .Select => .Named .Select
  | .Print => .Named .PrintScreen
  | .Execute => .Named .Execute
  | .Insert => .Named .Insert
  | .Undo => .Named .Undo
  | .Redo => .Named .Redo
  | .Menu => .Named .ContextMenu
  | .Find => .Named .Find
  | .Cancel => .Named .Cancel
  | .Help => .Named .Help
  | .Break => .Named .Pause
  | .Mode_switch => .Named .ModeChange
  | .Num_Lock => .Named .NumLock
  | .KP_Tab => .Named .Tab
  | .KP_Enter => .Named .Enter
  | .KP_F1 => .Named .F1
  | .KP_F2 => .Named .F2
  | .KP_F3 => .Named .F3
  | .KP_F4 => .Named .F4
  | .KP_Home => .Named .Home
  | .KP_Left => .Named .ArrowLeft
  | .KP_Up => .Named .ArrowUp
  | .KP_Right => .Named .ArrowRight
  | .KP_Down => .Named .ArrowDown
  | .KP_Page_Up => .Named .PageUp
  | .KP_Page_Down => .Named .PageDown
  | .KP_End => .Named .End
  | .KP_Insert => .Named .Insert
  | .KP_Delete => .Named .Delete
  | .F1 => .Named .F1
  | .F2 => .Named .F2
  | .F3 => .Named .F3
  | .F4 => .Named .F4
  | .F5 => .Named .F5
  | .F6 => .Named .F6
  | .F7 => .Named .F7
  | .F8 => .Named .F8
  | .F9 => .Named .F9
  | .F10 => .Named .F10
  | .F11 => .Named .F11
  | .F12 => .Named .F12
  | .F13 => .Named .F13
  | .F14 => .Named .F14
  | .F15 => .Named .F15
  | .F16 => .Named .F16
  | .F17 => .Named .F17
  | .F18 => .Named .F18
  | .F19 => .Named .F19
  | .F20 => .Named .F20
  | .F21 => .Named .F21
  | .F22 => .Named .F22
  | .F23 => .Named .F23
  | .F24 => .Named .F24
  | .F25 => .Named .F25
  | .F26 => .Named .F26
  | .F27 => .Named .F27
  | .F28 => .Named .F28
  | .F29 => .Named .F29
  | .F30 => .Named .F30
  | .F31 => .Named .F31
  | .F32 => .Named .F32
  | .F33 => .Named .F33
  | .F34 => .Named .F34
  | .F35 => .Named .F35
  | .Shift_L => .Named .Shift
  | .Shift_R => .Named .Shift
  | .Control_L => .Named .Control
  | .Control_R => .Named .Control
  | .Caps_Lock => .Named .CapsLock
  | .Alt_L => .Named .Alt
  | .Alt_R => .Named .Alt
  | .Super_L => .Named .Super
  | .Super_R => .Named .Super
  | .Hyper_L => .Named .Hyper
  | .Hyper_R => .Named .Hyper
  | .ISO_Level3_Shift => .Named .AltGraph
  | .ISO_Level3_Latch => .Named .AltGraph
  | .ISO_Level3_Lock => .Named .AltGraph
  | .ISO_Next_Group => .Named .GroupNext
  | .ISO_Prev_Group => .Named .GroupPrevious
  | .ISO_First_Group => .Named .GroupFirst
  | .ISO_Last_Group => .Named .GroupLast
  | .ISO_Left_Tab => .Named .Tab
  | .ISO_Enter => .Named .Enter
  | ._3270_EraseEOF => .Named .EraseEof
  | ._3270_Attn => .Named .Attn
  | ._3270_Play => .Named .Play
  | ._3270_ExSelect => .Named .ExSel
  | ._3270_CursorSelect => .Named .CrSel
  | ._3270_PrintScreen => .Named .PrintScreen
  | ._3270_Enter => .Named .Enter
  | .space => .Named .Space
  | .XF86_MonBrightnessUp => .Named .BrightnessUp
  | .XF86_MonBrightnessDown => .Named .BrightnessDown
  | .XF86_Standby => .Named .Standby
  | .XF86_AudioLowerVolume => .Named .AudioVolumeDown
  | .XF86_AudioRaiseVolume => .Named .AudioVolumeUp
  | .XF86_AudioPlay => .Named .MediaPlay
  | .XF86_AudioStop => .Named .MediaStop
  | .XF86_AudioPrev => .Named .MediaTrackPrevious
  | .XF86_AudioNext => .Named .MediaTrackNext
  | .XF86_HomePage => .Named .BrowserHome
  | .XF86_Mail => .Named .LaunchMail
  | .XF86_Search => .Named .BrowserSearch
  | .XF86_AudioRecord => .Named .MediaRecord
  | .XF86_Calculator => .Named .LaunchApplication2
  | .XF86_Calendar => .Named .LaunchCalendar
  | .XF86_PowerDown => .Named .Power
  | .XF86_Back => .Named .BrowserBack
  | .XF86_Forward => .Named .BrowserForward
  | .XF86_Refresh => .Named .BrowserRefresh
  | .XF86_PowerOff => .Named .Power
  | .XF86_WakeUp => .Named .WakeUp
  | .XF86_Eject => .Named .Eject
  | .XF86_ScreenSaver => .Named .LaunchScreenSaver
  | .XF86_WWW => .Named .LaunchWebBrowser
  | .XF86_Sleep => .Named .Standby
  | .XF86_Favorites => .Named .BrowserFavorites
  | .XF86_AudioPause => .Named .MediaPause
  | .XF86_MyComputer => .Named .LaunchApplication1
  | .XF86_AudioRewind => .Named .MediaRewind
  | .XF86_Calculater => .Named .LaunchApplication2
  | .XF86_Close => .Named .Close
  | .XF86_Copy => .Named .Copy
  | .XF86_Cut => .Named .Cut
  | .XF86_Excel => .Named .LaunchSpreadsheet
  | .XF86_LogOff => .Named .LogOff
  | .XF86_MySites => .Named .BrowserFavorites
  | .XF86_New => .Named .New
  | .XF86_Open => .Named .Open
  | .XF86_Paste => .Named .Paste
  | .XF86_Phone => .Named .LaunchPhone
  | .XF86_Reply => .Named .MailReply
  | .XF86_Reload => .Named .BrowserRefresh
  | .XF86_Save => .Named .Save
  | .XF86_Send => .Named .MailSend
  | .XF86_Spell => .Named .SpellCheck
  | .XF86_SplitScreen => .Named .SplitScreenToggle
  | .XF86_Video => .Named .LaunchMediaPlayer
  | .XF86_Word => .Named .LaunchWordProcessor
  | .XF86_ZoomIn => .Named .ZoomIn
  | .XF86_ZoomOut => .Named .ZoomOut
  | .XF86_WebCam => .Named .LaunchWebCam
  | .XF86_MailForward => .Named .MailForward
  | .XF86_Music => .Named .LaunchMusicPlayer
  | .XF86_AudioForward => .Named .MediaFastForward
  | .XF86_AudioRandomPlay => .Named .RandomToggle
  | .XF86_Subtitle => .Named .Subtitle
  | .XF86_AudioCycleTrack => .Named .MediaAudioTrack
  | .XF86_Suspend => .Named .Standby
  | .XF86_Hibernate => .Named .Hibernate
  | .XF86_AudioMute => .Named .AudioVolumeMute
  | .XF86_Next_VMode => .Named .VideoModeNext
  | .SUN_Copy => .Named .Copy
  | .SUN_Open => .Named .Open
  | .SUN_Paste => .Named .Paste
  | .SUN_Cut => .Named .Cut
  | .SUN_AudioLowerVolume => .Named .AudioVolumeDown
  | .SUN_AudioMute => .Named .AudioVolumeMute
  | .SUN_AudioRaiseVolume => .Named .AudioVolumeUp
  | .SUN_VideoLowerBrightness => .Named .BrightnessDown
  | .SUN_VideoRaiseBrightness => .Named .BrightnessUp
  | _ => .Unidentified

/-- `keysym_location` (src/iced/iced_input_handler.rs:433-478). -/
def keysym_location (keysym : Keysym) : Location :=
  match keysym with
  | .Shift_L | .Control_L | .Alt_L | .Super_L | .Hyper_L => .Left
  | .Shift_R | .Control_R | .Alt_R | .Super_R | .Hyper_R => .Right
  | .KP_0 | .KP_1 | .KP_2 | .KP_3 | .KP_4 | .KP_5 | .KP_6 | .KP_7 | .KP_8 | .KP_9
  | .KP_Space | .KP_Tab | .KP_Enter | .KP_F1 | .KP_F2 | .KP_F3 | .KP_F4 | .KP_Home
  | .KP_Left | .KP_Up | .KP_Right | .KP_Down | .KP_Page_Up | .KP_Page_Down | .KP_End
  | .KP_Begin | .KP_Insert | .KP_Delete | .KP_Equal | .KP_Multiply | .KP_Add
  | .KP_Separator | .KP_Subtract | .KP_Decimal | .KP_Divide => .Numpad
  | _ => .Standard

/-- `keysym_to_iced_key_and_loc` (src/iced/iced_input_handler.rs:480-484). -/
def keysym_to_iced_key_and_loc (keysym : Keysym) : Key × Location :=
  (keysym_to_iced_key keysym, keysym_location keysym)

/-- `iced::mouse::Button` (the variants the source maps to). -/
inductive IcedMouseButton where
  | Left | Right | Middle

/-- `wayland_button_to_iced` (src/iced/iced_input_handler.rs:486-497):
Linux button codes BTN_LEFT/BTN_RIGHT/BTN_MIDDLE map; all others drop. -/
def wayland_button_to_iced (button : Nat) : Option IcedMouseButton :=
  match button with
  | 0x110 => some .Left
  | 0x111 => some .Right
  | 0x112 => some .Middle
  | _ => none

/-- `keysym_to_physical_key` (src/iced/iced_input_handler.rs:499-700): the static
physical-key table; unmapped keysyms carry the raw scan code verbatim. -/
def keysym_to_physical_key (keysym : Keysym) (raw_code : Nat) : Physical :=
  match keysym with
  | ._0 => .Code .Digit0
  | ._1 => .Code .Digit1
  | ._2 => .Code .Digit2
  | ._3 => .Code .Digit3
  | ._4 => .Code .Digit4
  | ._5 => .Code .Digit5
  | ._6 => .Code .Digit6
  | ._7 => .Code .Digit7
  | ._8 => .Code .Digit8
  | ._9 => .Code .Digit9
  | .a | .A => .Code .KeyA
  | .b | .B => .Code .KeyB
  | .c | .C => .Code .KeyC
  | .d | .D => .Code .KeyD
  | .e | .E => .Code .KeyE
  | .f | .F => .Code .KeyF
  | .g | .G => .Code .KeyG
  | .h | .H => .Code .KeyH
  | .i | .I => .Code .KeyI
  | .j | .J => .Code .KeyJ
  | .k | .K => .Code .KeyK
  | .l | .L => .Code .KeyL
  | .m | .M => .Code .KeyM
  | .n | .N => .Code .KeyN
  | .o | .O => .Code .KeyO
  | .p | .P => .Code .KeyP
  | .q | .Q => .Code .KeyQ
  | .r | .R => .Code .KeyR
  | .s | .S => .Code .KeyS
  | .t | .T => .Code .KeyT
  | .u | .U => .Code .KeyU
  | .v | .V => .Code .KeyV
  | .w | .W => .Code .KeyW
  | .x | .X => .Code .KeyX
  | .y | .Y => .Code .KeyY
  | .z | .Z => .Code .KeyZ
  | .grave => .Code .Backquote
  | .minus => .Code .Minus
  | .equal => .Code .Equal
  | .bracketleft => .Code .BracketLeft
  | .bracketright => .Code .BracketRight
  | .backslash => .Code .Backslash
  | .semicolon => .Code .Semicolon
  | .apostrophe => .Code .Quote
  | .comma => .Code .Comma
  | .period => .Code .Period
  | .slash => .Code .Slash
  | .space => .Code .Space
  | .Tab => .Code .Tab
  | .Return => .Code .Enter
  | .BackSpace => .Code .Backspace
  | .Delete => .Code .Delete
  | .Escape => .Code .Escape
  | .Shift_L => .Code .ShiftLeft
  | .Shift_R => .Code .ShiftRight
  | .Control_L => .Code .ControlLeft
  | .Control_R => .Code .ControlRight
  | .Alt_L => .Code .AltLeft
  | .Alt_R => .Code .AltRight
  | .Super_L => .Code .SuperLeft
  | .Super_R => .Code .SuperRight
  | .Caps_Lock => .Code .CapsLock
  | .Num_Lock => .Code .NumLock
  | .Scroll_Lock => .Code .ScrollLock
  | .Home => .Code .Home
  | .End => .Code .End
  | .Page_Up => .Code .PageUp
  | .Page_Down => .Code .PageDown
  | .Left => .Code .ArrowLeft
  | .Right => .Code .ArrowRight
  | .Up => .Code .ArrowUp
  | .Down => .Code .ArrowDown
  | .Insert => .Code .Insert
  | .Print => .Code .PrintScreen
  | .Sys_Req => .Code .PrintScreen
  | .F1 => .Code .F1
  | .F2 => .Code .F2
  | .F3 => .Code .F3
  | .F4 => .Code .F4
  | .F5 => .Code .F5
  | .F6 => .Code .F6
  | .F7 => .Code .F7
  | .F8 => .Code .F8
  | .F9 => .Code .F9
  | .F10 => .Code .F10
  | .F11 => .Code .F11
  | .F12 => .Code .F12
  | .F13 => .Code .F13
  | .F14 => .Code .F14
  | .F15 => .Code .F15
  | .F16 => .Code .F16
  | .F17 => .Code .F17
  | .F18 => .Code .F18
  | .F19 => .Code .F19
  | .F20 => .Code .F20
  | .F21 => .Code .F21
  | .F22 => .Code .F22
  | .F23 => .Code .F23
  | .F24 => .Code .F24
  | .F25 => .Code .F25
  | .F26 => .Code .F26
  | .F27 => .Code .F27
  | .F28 => .Code .F28
  | .F29 => .Code .F29
  | .F30 => .Code .F30
  | .F31 => .Code .F31
  | .F32 => .Code .F32
  | .F33 => .Code .F33
  | .F34 => .Code .F34
  | .F35 => .Code .F35
  | .KP_0 => .Code .Numpad0
  | .KP_1 => .Code .Numpad1
  | .KP_2 => .Code .Numpad2
  | .KP_3 => .Code .Numpad3
  | .KP_4 => .Code .Numpad4
  | .KP_5 => .Code .Numpad5
  | .KP_6 => .Code .Numpad6
  | .KP_7 => .Code .Numpad7
  | .KP_8 => .Code .Numpad8
  | .KP_9 => .Code .Numpad9
  | .KP_Decimal => .Code .NumpadDecimal
  | .KP_Divide => .Code .NumpadDivide
  | .KP_Multiply => .Code .NumpadMultiply
  | .KP_Subtract => .Code .NumpadSubtract
  | .KP_Add => .Code .NumpadAdd
  | .KP_Enter => .Code .NumpadEnter
  | .KP_Equal => .Code .NumpadEqual
  | .Pause => .Code .Pause
  | .Break => .Code .Pause
  | .XF86_AudioMute => .Code .AudioVolumeMute
  | .XF86_AudioLowerVolume => .Code .AudioVolumeDown
  | .XF86_AudioRaiseVolume => .Code .AudioVolumeUp
  | .XF86_AudioPlay => .Code .MediaPlayPause
  | .XF86_AudioStop => .Code .MediaStop
  | .XF86_AudioPrev => .Code .MediaTrackPrevious
  | .XF86_AudioNext => .Code .MediaTrackNext
  | .XF86_Back => .Code .BrowserBack
  | .XF86_Forward => .Code .BrowserForward
  | .XF86_Refresh => .Code .BrowserRefresh
  | .XF86_Stop => .Code .BrowserStop
  | .XF86_Search => .Code .BrowserSearch
  | .XF86_HomePage => .Code .BrowserHome
  | .XF86_Favorites => .Code .BrowserFavorites
  | .XF86_PowerOff => .Code .Power
  | .XF86_Sleep => .Code .Sleep
  | .XF86_WakeUp => .Code .WakeUp
  | .XF86_Calculator => .Code .LaunchApp2
  | .XF86_Mail => .Code .LaunchMail
  | .XF86_MyComputer => .Code .LaunchApp1
  | .XF86_Music => .Code .MediaSelect
  | .XF86_Video => .Code .LaunchApp2
  | .XF86_Copy => .Code .Copy
  | .XF86_Cut => .Code .Cut
  | .XF86_Paste => .Code .Paste
  | .Henkan_Mode => .Code .Convert
  | .Muhenkan => .Code .NonConvert
  | .Kanji => .Code .Lang2
  | .Hiragana => .Code .Lang4
  | .Katakana => .Code .Lang3
  | .Menu => .Code .ContextMenu
  | _ => .Unidentified (.Xkb raw_code)


/-- `iced::keyboard::Modifiers`: a bitflag set in iced; the source only ever
constructs it from `empty()` plus the SHIFT/CTRL/ALT flags, so those three
are the fields. -/
structure IcedModifiers where
  shift : Bool
  ctrl : Bool
  alt : Bool
  deriving Repr, DecidableEq

/-- `IcedModifiers::default()` / `IcedModifiers::empty()`. -/
def IcedModifiers.empty : IcedModifiers := ⟨false, false, false⟩

/-- `iced::mouse::ScrollDelta` (only the `Lines` variant is produced; the i32
discrete deltas, cast to f32 in the source, are kept as `Int`). -/
inductive ScrollDelta where
  | Lines (x y : Int)

/-- `iced::mouse::Event` (the variants the source produces).  Cursor
coordinates, f64/f32 in the source, are modelled as `Int` (stored, never
computed with). -/
inductive MouseEvent where
  | CursorEntered
  | CursorLeft
  | CursorMoved (x y : Int)
  | ButtonPressed (b : IcedMouseButton)
  | ButtonReleased (b : IcedMouseButton)
  | WheelScrolled (delta : ScrollDelta)

/-- `iced::keyboard::Event` (the variants the source produces), with the
field order of the source's struct literals. -/
inductive KeyboardEvent where
  | KeyPressed (key : Key) (location : Location) (modifiers : IcedModifiers)
      (text : Option String) (modified_key : Key) (physical_key : Physical)
      (isRepeat : Bool)
  | KeyReleased (key : Key) (location : Location) (modifiers : IcedModifiers)
      (physical_key : Physical) (modified_key : Key)

/-- `iced_core::window::Event::RedrawRequested`; the `Instant` payload is a
`Nat` tick supplied by the caller. -/
inductive WindowEvent where
  | RedrawRequested (t : Nat)

/-- `iced::event::Event` (the variants the source produces). -/
inductive IcedEvent where
  | Mouse (e : MouseEvent)
  | Keyboard (e : KeyboardEvent)
  | Window (e : WindowEvent)

/-- `smithay_client_toolkit::seat::keyboard::KeyEvent` (the fields the source
reads: `keysym`, `utf8`, `raw_code`). -/
structure KeyEvent where
  keysym : Keysym
  utf8 : Option String
  raw_code : Nat

/-- `smithay_client_toolkit::seat::keyboard::Modifiers` (the fields the
source reads: `ctrl`, `shift`, `alt`). -/
structure WaylandModifiers where
  ctrl : Bool
  shift : Bool
  alt : Bool

/-- `smithay_client_toolkit::seat::pointer::AxisScroll` (the source reads only
the `discrete : i32` field; the continuous `absolute : f64` field is never
consulted, which is exactly what the scroll-suppression property is about). -/
structure AxisScroll where
  discrete : Int

/-- `smithay_client_toolkit::seat::pointer::PointerEventKind` (payload fields
the source reads). -/
inductive PointerEventKind where
  | Enter
  | Leave
  | Motion
  | Press (button : Nat)
  | Release (button : Nat)
  | Axis (horizontal vertical : AxisScroll)

/-- `smithay_client_toolkit::seat::pointer::PointerEvent` (fields the source
reads). Position is an f64 pair in the source, stored but never computed
with, modelled as `Int × Int`. -/
structure PointerEvent where
  position : Int × Int
  kind : PointerEventKind

/-- `WaylandToIcedInput` (src/iced/iced_input_handler.rs:23-32).  The
`start_time : Instant` and `clipboard : Clipboard` fields are opaque external
resources never read by any method of the struct and are elided; the
`last_key_utf8` field is kept because its (absent) update is one of the
properties under examination. -/
structure WaylandToIcedInput where
  modifiers : IcedModifiers
  pointer_pos : Int × Int
  events : List IcedEvent
  screen_width : Nat
  screen_height : Nat
  last_key_utf8 : Option String

namespace WaylandToIcedInput

/-- `WaylandToIcedInput::new` (src/iced/iced_input_handler.rs:35-46). -/
def new : WaylandToIcedInput :=
  { modifiers := IcedModifiers.empty
    pointer_pos := (0, 0)
    events := []
    screen_width := 256
    screen_height := 256
    last_key_utf8 := none }

/-- `set_screen_size` (src/iced/iced_input_handler.rs:48-51). -/
def set_screen_size (s : WaylandToIcedInput) (width height : Nat) : WaylandToIcedInput :=
  { s with screen_width := width, screen_height := height }

/-- `set_pointer_position` (src/iced/iced_input_handler.rs:53-55). -/
def set_pointer_position (s : WaylandToIcedInput) (x y : Int) : WaylandToIcedInput :=
  { s with pointer_pos := (x, y) }

/-- `handle_pointer_event` (src/iced/iced_input_handler.rs:57-119). -/
def handle_pointer_event (s : WaylandToIcedInput) (event : PointerEvent) :
    WaylandToIcedInput :=
  match event.kind with
  | .Enter =>
      { s with pointer_pos := event.position
               events := s.events ++ [.Mouse .CursorEntered] }
  | .Leave =>
      { s with events := s.events ++ [.Mouse .CursorLeft] }
  | .Motion =>
      { s with pointer_pos := event.position
               events := s.events ++
                 [.Mouse (.CursorMoved event.position.1 event.position.2)] }
  | .Press button =>
      match wayland_button_to_iced button with
      | some iced_button =>
          { s with events := s.events ++ [.Mouse (.ButtonPressed iced_button)] }
      | none => s
  | .Release button =>
      match wayland_button_to_iced button with
      | some iced_button =>
          { s with events := s.events ++ [.Mouse (.ButtonReleased iced_button)] }
      | none => s
  | .Axis horizontal vertical =>
      let scroll_delta := ScrollDelta.Lines horizontal.discrete vertical.discrete
      if horizontal.discrete ≠ 0 ∨ vertical.discrete ≠ 0 then
        { s with events := s.events ++ [.Mouse (.WheelScrolled scroll_delta)] }
      else
        s

/-- `take_events` (src/iced/iced_input_handler.rs:121-123): `mem::take`. -/
def take_events (s : WaylandToIcedInput) : List IcedEvent × WaylandToIcedInput :=
  (s.events, { s with events := [] })

/-- `handle_keyboard_enter` (src/iced/iced_input_handler.rs:125-129): no-op. -/
def handle_keyboard_enter (s : WaylandToIcedInput) : WaylandToIcedInput := s

/-- `handle_keyboard_leave` (src/iced/iced_input_handler.rs:131-134): no-op. -/
def handle_keyboard_leave (s : WaylandToIcedInput) : WaylandToIcedInput := s

/-- `handle_keyboard_event` (src/iced/iced_input_handler.rs:136-167). -/
def handle_keyboard_event (s : WaylandToIcedInput) (event : KeyEvent)
    (pressed is_repeat : Bool) : WaylandToIcedInput :=
  let kl := keysym_to_iced_key_and_loc event.keysym
  let key := kl.1
  let location := kl.2
  let text := event.utf8
  let physical_key := keysym_to_physical_key event.keysym event.raw_code
  if pressed then
    { s with events := s.events ++
        [.Keyboard (.KeyPressed key location s.modifiers text key physical_key
          is_repeat)] }
  else
    { s with events := s.events ++
        [.Keyboard (.KeyReleased key location s.modifiers physical_key key)] }

/-- `update_modifiers` (src/iced/iced_input_handler.rs:169-185). -/
def update_modifiers (s : WaylandToIcedInput) (wayland_mods : WaylandModifiers) :
    WaylandToIcedInput :=
  { s with modifiers :=
      { shift := wayland_mods.shift
        ctrl := wayland_mods.ctrl
        alt := wayland_mods.alt } }

/-- `get_modifiers` (src/iced/iced_input_handler.rs:187-189). -/
def get_modifiers (s : WaylandToIcedInput) : IcedModifiers := s.modifiers

/-- `get_pointer_position` (src/iced/iced_input_handler.rs:191-193). -/
def get_pointer_position (s : WaylandToIcedInput) : Int × Int := s.pointer_pos

end WaylandToIcedInput


/-- The UI-toolkit collaborators of `IcedSurfaceState`, passed as an explicit
interface: `view`/`update` are the surface's `IcedAppData` implementation
(src/iced/iced_containers.rs:46-51); `build` is `UserInterface::build` (a
widget tree from an element, the logical viewport size, and the persisted
cache); `uiUpdate` is `UserInterface::update` (the event-updated interface
plus the collected application messages, given the drained events and cursor
position); `intoCache` is `UserInterface::into_cache`; `defaultCache` is
`user_interface::Cache::default()`.  The GPU renderer handle threaded through
these calls in the source is an opaque mutable resource and is elided. -/
structure Toolkit (A M Elem UI C : Type) where
  view : A → Elem
  update : A → M → A
  build : Elem → Nat × Nat → C → UI
  uiUpdate : UI → List IcedEvent → Int × Int → UI × List M
  intoCache : UI → C
  defaultCache : C

/-- The varying part of `wgpu::SurfaceConfiguration` as built by
`reconfigure_surface` (src/iced/iced_containers.rs:359-374); all other fields
are constants. -/
structure SurfaceConfig where
  width : Nat
  height : Nat
  deriving Repr, DecidableEq

/-- `iced_graphics::Viewport` as built by `create_viewport`. -/
structure Viewport where
  physical_width : Nat
  physical_height : Nat
  scale : Nat

/-- `Viewport::logical_size` (physical size divided by the scale factor). -/
def Viewport.logical_size (v : Viewport) : Nat × Nat :=
  (v.physical_width / v.scale, v.physical_height / v.scale)

/-- `u32::saturating_mul`. -/
def u32sat_mul (a b : Nat) : Nat := min (a * b) 4294967295

/-- Rust `i32 as u32` two's-complement cast. -/
def u32_of_i32 (i : Int) : Nat := (i % 4294967296).toNat

/-- The per-render outward effects of `IcedSurfaceState::render`: how many
times the acquired surface texture was presented
(`present_frame`, src/iced/iced_containers.rs:336-351), whether the next
compositor frame callback was requested (`request_next_frame`,
src/iced/iced_containers.rs:353-357), and the user-interface state that was
drawn into the frame. -/
structure RenderOut (UI : Type) where
  presents : Nat
  frame_requested : Bool
  drawn : UI

/-- `IcedSurfaceState` (src/iced/iced_containers.rs:53-70).  The Wayland and
GPU handles (`wl_surface`, `surface`, `device`, `_queue`, `_engine`,
`renderer`, `queue_handle`, `output_format`) are opaque external resources;
`mouse_interaction` only drives the cursor-shape outbound effect and is
elided together with it. -/
structure IcedSurfaceState (A C : Type) where
  input_state : WaylandToIcedInput
  iced_app : A
  width : Nat
  height : Nat
  scale_factor : Int
  surface_config : Option SurfaceConfig
  cache : C

namespace IcedSurfaceState

variable {A M Elem UI C : Type}

/-- `IcedSurfaceState::new` (src/iced/iced_containers.rs:73-148): the state
fields it initializes (the GPU bootstrap is external). -/
def new (tk : Toolkit A M Elem UI C) (iced_app : A) : IcedSurfaceState A C :=
  { input_state := WaylandToIcedInput.new
    iced_app := iced_app
    width := 256
    height := 256
    scale_factor := 1
    surface_config := none
    cache := tk.defaultCache }

/-- `physical_scale` (src/iced/iced_containers.rs:376-378). -/
def physical_scale (s : IcedSurfaceState A C) : Nat := (max s.scale_factor 1).toNat

/-- `create_viewport` (src/iced/iced_containers.rs:229-236). -/
def create_viewport (s : IcedSurfaceState A C) : Viewport :=
  { physical_width := u32sat_mul s.width s.physical_scale
    physical_height := u32sat_mul s.height s.physical_scale
    scale := s.physical_scale }

/-- `collect_events` (src/iced/iced_containers.rs:238-248): drain the input
queue, remember whether it was non-empty, then append the synthesized
`RedrawRequested` marker (`now` stands for `Instant::now()`). -/
def collect_events (s : IcedSurfaceState A C) (now : Nat) :
    (List IcedEvent × Bool) × IcedSurfaceState A C :=
  let taken := s.input_state.take_events
  let events := taken.1
  let had_input_events := !events.isEmpty
  ((events ++ [.Window (.RedrawRequested now)], had_input_events),
   { s with input_state := taken.2 })

/-- `get_cursor_position` (src/iced/iced_containers.rs:250-255). -/
def get_cursor_position (s : IcedSurfaceState A C) : Int × Int :=
  s.input_state.get_pointer_position

/-- `update_and_draw` (src/iced/iced_containers.rs:257-334): build the user
interface, run the toolkit update over the events, and either draw the
event-updated first build (no messages) or apply every message to the
application state in order, rebuild, and draw the rebuilt state.  The
returned `UI` is the interface that was drawn.  The mouse-interaction /
cursor-shape feedback block (lines 281-291) is an outbound effect to the
seat layer and is elided. -/
def update_and_draw (tk : Toolkit A M Elem UI C) (s : IcedSurfaceState A C)
    (viewport : Viewport) (events : List IcedEvent) (cursor : Int × Int) :
    IcedSurfaceState A C × UI :=
  let user_interface := tk.build (tk.view s.iced_app) viewport.logical_size s.cache
  let upd := tk.uiUpdate user_interface events cursor
  let ui := upd.1
  let messages := upd.2
  if messages.isEmpty then
    ({ s with cache := tk.intoCache ui }, ui)
  else
    let cache1 := tk.intoCache ui
    let iced_app := messages.foldl tk.update s.iced_app
    let rebuilt := tk.build (tk.view iced_app) viewport.logical_size cache1
    ({ s with iced_app := iced_app, cache := tk.intoCache rebuilt }, rebuilt)

/-- `render` (src/iced/iced_containers.rs:203-227): acquire the texture
(failure is a panic in the source, outside the model), drain the queue,
update and draw, present exactly once, and request the next compositor frame
callback only when the drained queue was non-empty. -/
def render (tk : Toolkit A M Elem UI C) (s : IcedSurfaceState A C) (now : Nat) :
    IcedSurfaceState A C × RenderOut UI :=
  let viewport := s.create_viewport
  let col := s.collect_events now
  let s1 := col.2
  let cursor := s1.get_cursor_position
  let ud := update_and_draw tk s1 viewport col.1.1 cursor
  (ud.1, { presents := 1, frame_requested := col.1.2, drawn := ud.2 })

/-- `reconfigure_surface` (src/iced/iced_containers.rs:359-374). -/
def reconfigure_surface (s : IcedSurfaceState A C) : IcedSurfaceState A C :=
  let width := max (u32sat_mul s.width s.physical_scale) 1
  let height := max (u32sat_mul s.height s.physical_scale) 1
  { s with surface_config := some { width := width, height := height } }

/-- `configure` (src/iced/iced_containers.rs:150-160): clamp both dimensions
to ≥ 1, propagate the clamped size to the input translator, reconfigure the
presentation surface, then render once immediately. -/
def configure (tk : Toolkit A M Elem UI C) (s : IcedSurfaceState A C)
    (width height : Nat) (now : Nat) : IcedSurfaceState A C × RenderOut UI :=
  let w := max width 1
  let h := max height 1
  let s1 := { s with width := w, height := h,
                     input_state := s.input_state.set_screen_size w h }
  let s2 := s1.reconfigure_surface
  render tk s2 now

/-- `frame` (src/iced/iced_containers.rs:162-164). -/
def frame (tk : Toolkit A M Elem UI C) (s : IcedSurfaceState A C)
    (_time : Nat) (now : Nat) : IcedSurfaceState A C × RenderOut UI :=
  render tk s now

/-- `handle_pointer_event` (src/iced/iced_containers.rs:166-169). -/
def handle_pointer_event (tk : Toolkit A M Elem UI C) (s : IcedSurfaceState A C)
    (event : PointerEvent) (now : Nat) : IcedSurfaceState A C × RenderOut UI :=
  let s1 := { s with input_state := s.input_state.handle_pointer_event event }
  render tk s1 now

/-- `handle_keyboard_event` (src/iced/iced_containers.rs:181-185). -/
def handle_keyboard_event (tk : Toolkit A M Elem UI C) (s : IcedSurfaceState A C)
    (event : KeyEvent) (pressed is_repeat : Bool) (now : Nat) :
    IcedSurfaceState A C × RenderOut UI :=
  let s1 := { s with
    input_state := s.input_state.handle_keyboard_event event pressed is_repeat }
  render tk s1 now

/-- `update_modifiers` (src/iced/iced_containers.rs:187-190). -/
def update_modifiers (tk : Toolkit A M Elem UI C) (s : IcedSurfaceState A C)
    (modifiers : WaylandModifiers) (now : Nat) : IcedSurfaceState A C × RenderOut UI :=
  let s1 := { s with input_state := s.input_state.update_modifiers modifiers }
  render tk s1 now

/-- `scale_factor_changed` (src/iced/iced_containers.rs:192-201): clamp the
factor to ≥ 1; if unchanged, no-op (the `set_buffer_scale` call is an
outbound protocol effect); otherwise store it, reconfigure, and render. -/
def scale_factor_changed (tk : Toolkit A M Elem UI C) (s : IcedSurfaceState A C)
    (new_factor : Int) (now : Nat) : IcedSurfaceState A C × Option (RenderOut UI) :=
  let factor := max new_factor 1
  if factor = s.scale_factor then
    (s, none)
  else
    let s1 := ({ s with scale_factor := factor } : IcedSurfaceState A C).reconfigure_surface
    let ro := render tk s1 now
    (ro.1, some ro.2)

end IcedSurfaceState


/-- `WindowConfigure` (the field the source reads): `new_size` is a pair of
`Option<NonZeroU32>`; a `some` payload is a non-zero u32. -/
structure WindowConfigure where
  new_size : Option Nat × Option Nat

/-- `LayerSurfaceConfigure` (the field the source reads): mandatory u32 pair. -/
structure LayerSurfaceConfigure where
  new_size : Nat × Nat

/-- `PopupConfigure` (the fields the source reads): signed i32 dimensions. -/
structure PopupConfigure where
  width : Int
  height : Int

/-- `IcedWindow` (src/iced/iced_containers.rs:381-384); the `window : Window`
protocol handle is opaque. -/
structure IcedWindow (A C : Type) where
  surface : IcedSurfaceState A C

/-- `IcedWindow::new` (src/iced/iced_containers.rs:386-393): build the default
surface state, then overwrite width/height with the caller values verbatim. -/
def IcedWindow.new {A M Elem UI C : Type} (tk : Toolkit A M Elem UI C)
    (iced_app : A) (width height : Nat) : IcedWindow A C :=
  let surface := IcedSurfaceState.new tk iced_app
  { surface := { surface with width := width, height := height } }

/-- `IcedWindow`'s `WindowContainer::configure`
(src/iced/iced_containers.rs:443-452): default 256 for an unspecified
dimension, the payload value verbatim for a specified one (the
`set_buffer_scale` call is an outbound protocol effect). -/
def IcedWindow.configure {A M Elem UI C : Type} (tk : Toolkit A M Elem UI C)
    (w : IcedWindow A C) (configure : WindowConfigure) (now : Nat) :
    IcedWindow A C × RenderOut UI :=
  let width := match configure.new_size.1 with
    | none => 256
    | some size => size
  let height := match configure.new_size.2 with
    | none => 256
    | some size => size
  let so := IcedSurfaceState.configure tk w.surface width height now
  ({ surface := so.1 }, so.2)

/-- `IcedLayerSurface` (src/iced/iced_containers.rs:454-457). -/
structure IcedLayerSurface (A C : Type) where
  surface : IcedSurfaceState A C

/-- `IcedLayerSurface::new` (src/iced/iced_containers.rs:459-469). -/
def IcedLayerSurface.new {A M Elem UI C : Type} (tk : Toolkit A M Elem UI C)
    (iced_app : A) (width height : Nat) : IcedLayerSurface A C :=
  let surface := IcedSurfaceState.new tk iced_app
  { surface := { surface with width := width, height := height } }

/-- `IcedLayerSurface`'s `LayerSurfaceContainer::configure`
(src/iced/iced_containers.rs:519-526): mandatory dimensions forwarded as-is. -/
def IcedLayerSurface.configure {A M Elem UI C : Type} (tk : Toolkit A M Elem UI C)
    (l : IcedLayerSurface A C) (config : LayerSurfaceConfigure) (now : Nat) :
    IcedLayerSurface A C × RenderOut UI :=
  let so :=
    IcedSurfaceState.configure tk l.surface config.new_size.1 config.new_size.2 now
  ({ surface := so.1 }, so.2)

/-- `IcedPopup` (src/iced/iced_containers.rs:528-531). -/
structure IcedPopup (A C : Type) where
  surface : IcedSurfaceState A C

/-- `IcedPopup::new` (src/iced/iced_containers.rs:533-540). -/
def IcedPopup.new {A M Elem UI C : Type} (tk : Toolkit A M Elem UI C)
    (iced_app : A) (width height : Nat) : IcedPopup A C :=
  let surface := IcedSurfaceState.new tk iced_app
  { surface := { surface with width := width, height := height } }

/-- `IcedPopup`'s `PopupContainer::configure`
(src/iced/iced_containers.rs:590-600): the signed payload dimensions are
cast with `as u32` (two's-complement wrap) and forwarded. -/
def IcedPopup.configure {A M Elem UI C : Type} (tk : Toolkit A M Elem UI C)
    (p : IcedPopup A C) (config : PopupConfigure) (now : Nat) :
    IcedPopup A C × RenderOut UI :=
  let so := IcedSurfaceState.configure tk p.surface
    (u32_of_i32 config.width) (u32_of_i32 config.height) now
  ({ surface := so.1 }, so.2)

/-- `IcedSubsurface` (src/iced/iced_containers.rs:602-605). -/
structure IcedSubsurface (A C : Type) where
  surface : IcedSurfaceState A C

/-- `IcedSubsurface::new` (src/iced/iced_containers.rs:607-617). -/
def IcedSubsurface.new {A M Elem UI C : Type} (tk : Toolkit A M Elem UI C)
    (iced_app : A) (width height : Nat) : IcedSubsurface A C :=
  let surface := IcedSurfaceState.new tk iced_app
  { surface := { surface with width := width, height := height } }

/-- `IcedSubsurface`'s `SubsurfaceContainer::configure`
(src/iced/iced_containers.rs:667-672). -/
def IcedSubsurface.configure {A M Elem UI C : Type} (tk : Toolkit A M Elem UI C)
    (sub : IcedSubsurface A C) (width height : Nat) (now : Nat) :
    IcedSubsurface A C × RenderOut UI :=
  let so := IcedSurfaceState.configure tk sub.surface width height now
  ({ surface := so.1 }, so.2)


/-- A queued event having the shape a synthetic clipboard-chord key event
would have: a key press whose logical key is the named Copy, Cut or Paste
key. -/
def isClipboardChordPress (ev : IcedEvent) : Bool :=
  match ev with
  | .Keyboard (.KeyPressed (.Named .Copy) ..) => true
  | .Keyboard (.KeyPressed (.Named .Cut) ..) => true
  | .Keyboard (.KeyPressed (.Named .Paste) ..) => true
  | _ => false

/-- A queued event that is a key press (of any key). -/
def isKeyPress (ev : IcedEvent) : Bool :=
  match ev with
  | .Keyboard (.KeyPressed ..) => true
  | _ => false

/-- The composed text of a queued key-press event (`none` for any other
event shape, `some t` for a press carrying text `t`). -/
def pressText (ev : IcedEvent) : Option (Option String) :=
  match ev with
  | .Keyboard (.KeyPressed _ _ _ text _ _ _) => some text
  | _ => none

/-- Whether a string contains an ASCII control character. -/
def containsControl (t : String) : Bool :=
  t.data.any (fun ch => ch.toNat < 32 || ch.toNat == 127)

/-- The literal key-press event `handle_keyboard_event` constructs for a key
event received while the translator is in state `s` (the straight-through
translation of src/iced/iced_input_handler.rs:146-156). -/
def literalPress (s : WaylandToIcedInput) (e : KeyEvent) (is_repeat : Bool) : IcedEvent :=
  .Keyboard (.KeyPressed (keysym_to_iced_key e.keysym) (keysym_location e.keysym)
    s.modifiers e.utf8 (keysym_to_iced_key e.keysym)
    (keysym_to_physical_key e.keysym e.raw_code) is_repeat)

/-- The literal key-release event `handle_keyboard_event` constructs
(src/iced/iced_input_handler.rs:157-166). -/
def literalRelease (s : WaylandToIcedInput) (e : KeyEvent) : IcedEvent :=
  .Keyboard (.KeyReleased (keysym_to_iced_key e.keysym) (keysym_location e.keysym)
    s.modifiers (keysym_to_physical_key e.keysym e.raw_code)
    (keysym_to_iced_key e.keysym))


set_option maxHeartbeats 1000000 in
/-- C1 counterexample: pressing `c` while ctrl is held (not a repeat) queues
zero synthetic copy/cut/paste key events and one ordinary key-press event —
the claim demanded exactly one synthetic event and zero key-press events for
the character, so it fails at this input. -/
theorem ctrl_c_press_is_not_intercepted :
    let s := WaylandToIcedInput.new.update_modifiers ⟨true, false, false⟩
    let out := s.handle_keyboard_event ⟨.c, some "c", 54⟩ true false
    s.modifiers.ctrl = true ∧
    (out.events.filter isClipboardChordPress).length = 0 ∧
    (out.events.filter isKeyPress).length = 1 := by
  decide

/-- C1 (amended): a ctrl+`c`/`x`/`v` press is not intercepted —                 
`handle_keyboard_event` queues exactly one literal key-press event (the
statically mapped key with the protocol-supplied text), that event is not a
synthetic copy/cut/paste event, and the corresponding release is queued as a
literal release event. -/
theorem chord_press_translates_literally (s : WaylandToIcedInput) (e : KeyEvent)
    (r : Bool) (hctrl : s.modifiers.ctrl = true)
    (hkey : e.keysym = .c ∨ e.keysym = .x ∨ e.keysym = .v) :
    (s.handle_keyboard_event e true r).events = s.events ++ [literalPress s e r] ∧
    isClipboardChordPress (literalPress s e r) = false ∧
    (s.handle_keyboard_event e false false).events = s.events ++ [literalRelease s e] := by
  refine ⟨rfl, ?_, rfl⟩
  have hred : keysym_to_iced_key e.keysym = .Unidentified := by
    rcases hkey with hk | hk | hk <;> (rw [hk]; rfl)
  unfold literalPress
  rw [hred]
  rfl

/-- Witness for `chord_press_translates_literally` at a concrete ctrl+c
press. -/
theorem chord_press_translates_literally_witness :
    let s := WaylandToIcedInput.new.update_modifiers ⟨true, false, false⟩
    let e : KeyEvent := ⟨.c, some "c", 54⟩
    (s.handle_keyboard_event e true false).events = s.events ++ [literalPress s e false] ∧
    isClipboardChordPress (literalPress s e false) = false ∧
    (s.handle_keyboard_event e false false).events = s.events ++ [literalRelease s e] :=
  chord_press_translates_literally
    (WaylandToIcedInput.new.update_modifiers ⟨true, false, false⟩)
    ⟨.c, some "c", 54⟩ false rfl (Or.inl rfl)

/-- C3 counterexample: after a press of `a` with supplied text "a", a repeat
of `a` with no protocol-supplied text queues a repeat event whose text is
`none`, not the remembered "a" the claim demanded. -/
theorem repeat_without_text_carries_none :
    let s1 := WaylandToIcedInput.new.handle_keyboard_event ⟨.a, some "a", 38⟩ true false
    let s2 := s1.handle_keyboard_event ⟨.a, none, 38⟩ true true
    (s2.events.filterMap pressText).getLast? = some none ∧
    s2.last_key_utf8 = none ∧
    some (none : Option String) ≠ some (some "a") := by
  decide

/-- C3 (amended): the text of a queued press/repeat event is exactly the
protocol-supplied text of that event (`none` when none was supplied); no
remembered text is substituted — `last_key_utf8` is never updated by
`handle_keyboard_event`. -/
theorem key_event_text_is_protocol_supplied (s : WaylandToIcedInput)
    (e : KeyEvent) (pressed r : Bool) :
    (s.handle_keyboard_event e pressed r).last_key_utf8 = s.last_key_utf8 ∧
    (s.handle_keyboard_event e true r).events.filterMap pressText
      = s.events.filterMap pressText ++ [e.utf8] := by
  constructor
  · cases pressed <;> rfl
  · simp [WaylandToIcedInput.handle_keyboard_event, pressText]

/-- C8 counterexample: a press whose protocol-supplied UTF-8 text is the
control character U+0001 queues a press event carrying exactly that control
text — control characters are forwarded, contradicting the claim. -/
theorem control_text_is_forwarded :
    let s := WaylandToIcedInput.new.update_modifiers ⟨true, false, false⟩
    let out := s.handle_keyboard_event ⟨.a, some "\x01", 38⟩ true false
    (out.events.filterMap pressText) = [some "\x01"] ∧
    containsControl "\x01" = true := by
  decide

/-- C8 (amended): the protocol-supplied text is attached to the queued press
or repeat event verbatim, even when it contains control characters — no
filtering occurs. -/
theorem press_text_forwarded_verbatim (s : WaylandToIcedInput) (r : Bool)
    (u : String) (hc : containsControl u = true) (e : KeyEvent)
    (he : e.utf8 = some u) :
    (s.handle_keyboard_event e true r).events.filterMap pressText
      = s.events.filterMap pressText ++ [some u] := by
  simp [WaylandToIcedInput.handle_keyboard_event, pressText, he]

/-- Witness for `press_text_forwarded_verbatim` at a concrete control-text
press. -/
theorem press_text_forwarded_verbatim_witness :
    (WaylandToIcedInput.new.handle_keyboard_event ⟨.a, some "\x01", 38⟩ true false).events.filterMap pressText
      = WaylandToIcedInput.new.events.filterMap pressText ++ [some "\x01"] :=
  press_text_forwarded_verbatim WaylandToIcedInput.new false "\x01" (by decide)
    ⟨.a, some "\x01", 38⟩ rfl

/-- C9: a pointer axis sub-event queues exactly one wheel-scroll event in
discrete line units when at least one axis has a non-zero discrete delta,
and queues nothing when both discrete deltas are zero. -/
theorem axis_event_queues_wheel_iff_discrete_nonzero (s : WaylandToIcedInput)
    (pos : Int × Int) (h v : AxisScroll) :
    (s.handle_pointer_event ⟨pos, .Axis h v⟩).events =
      s.events ++
        (if h.discrete = 0 ∧ v.discrete = 0 then []
         else [.Mouse (.WheelScrolled (.Lines h.discrete v.discrete))]) := by
  by_cases hz : h.discrete = 0 ∧ v.discrete = 0
  · have hcond : ¬(h.discrete ≠ 0 ∨ v.discrete ≠ 0) := by tauto
    simp only [WaylandToIcedInput.handle_pointer_event]
    rw [if_neg hcond, if_pos hz, List.append_nil]
  · have hcond : h.discrete ≠ 0 ∨ v.discrete ≠ 0 := by tauto
    simp only [WaylandToIcedInput.handle_pointer_event]
    rw [if_pos hcond, if_neg hz]


/-- The state left by `render`: geometry and configuration are unchanged, and
the input queue has been drained (helper, per field). -/
theorem render_fst_width {A M Elem UI C : Type} (tk : Toolkit A M Elem UI C)
    (s : IcedSurfaceState A C) (now : Nat) :
    (IcedSurfaceState.render tk s now).1.width = s.width := by
  unfold IcedSurfaceState.render IcedSurfaceState.update_and_draw
  dsimp only
  split <;> rfl

theorem render_fst_height {A M Elem UI C : Type} (tk : Toolkit A M Elem UI C)
    (s : IcedSurfaceState A C) (now : Nat) :
    (IcedSurfaceState.render tk s now).1.height = s.height := by
  unfold IcedSurfaceState.render IcedSurfaceState.update_and_draw
  dsimp only
  split <;> rfl

theorem render_fst_scale_factor {A M Elem UI C : Type} (tk : Toolkit A M Elem UI C)
    (s : IcedSurfaceState A C) (now : Nat) :
    (IcedSurfaceState.render tk s now).1.scale_factor = s.scale_factor := by
  unfold IcedSurfaceState.render IcedSurfaceState.update_and_draw
  dsimp only
  split <;> rfl

theorem render_fst_surface_config {A M Elem UI C : Type} (tk : Toolkit A M Elem UI C)
    (s : IcedSurfaceState A C) (now : Nat) :
    (IcedSurfaceState.render tk s now).1.surface_config = s.surface_config := by
  unfold IcedSurfaceState.render IcedSurfaceState.update_and_draw
  dsimp only
  split <;> rfl

theorem render_fst_input_state {A M Elem UI C : Type} (tk : Toolkit A M Elem UI C)
    (s : IcedSurfaceState A C) (now : Nat) :
    (IcedSurfaceState.render tk s now).1.input_state =
      { s.input_state with events := [] } := by
  unfold IcedSurfaceState.render IcedSurfaceState.update_and_draw
  dsimp only
  split <;> rfl

/-- C2: after a render pass, the next compositor frame callback is requested
iff the input-event queue drained by that pass was non-empty; in particular a
configure-triggered render re-arms iff the queue it drained was non-empty
(the synthesized redraw-requested marker appended during the pass is not
counted). -/
theorem frame_rearm_iff_input_queue_nonempty {A M Elem UI C : Type}
    (tk : Toolkit A M Elem UI C) (s : IcedSurfaceState A C) (w h now : Nat) :
    ((IcedSurfaceState.render tk s now).2.frame_requested = true ↔
       s.input_state.events ≠ []) ∧
    ((IcedSurfaceState.configure tk s w h now).2.frame_requested = true ↔
       s.input_state.events ≠ []) := by
  constructor <;>
  · show (!s.input_state.events.isEmpty) = true ↔ s.input_state.events ≠ []
    cases s.input_state.events <;> simp

/-- C5: `configure` stores both dimensions clamped to at least 1 (a 0 input
becomes 1) and pushes exactly those clamped values into the input
translator's screen size. -/
theorem configure_clamps_size_and_updates_screen {A M Elem UI C : Type}
    (tk : Toolkit A M Elem UI C) (s : IcedSurfaceState A C)
    (width height now : Nat) :
    (IcedSurfaceState.configure tk s width height now).1.width = max width 1 ∧
    (IcedSurfaceState.configure tk s width height now).1.height = max height 1 ∧
    1 ≤ (IcedSurfaceState.configure tk s width height now).1.width ∧
    1 ≤ (IcedSurfaceState.configure tk s width height now).1.height ∧
    (IcedSurfaceState.configure tk s width height now).1.input_state.screen_width
      = max width 1 ∧
    (IcedSurfaceState.configure tk s width height now).1.input_state.screen_height
      = max height 1 := by
  unfold IcedSurfaceState.configure
  refine ⟨?_, ?_, ?_, ?_, ?_, ?_⟩ <;>
    simp [render_fst_width, render_fst_height, render_fst_input_state,
      IcedSurfaceState.reconfigure_surface, WaylandToIcedInput.set_screen_size]


/-- C4: in every render pass the acquired texture is presented exactly once,
and the drawn interface is the event-updated first build when the toolkit
update produced no messages, or the second build of the state obtained by
folding every message (in order) into the application state when it did. -/
theorem render_draw_reflects_messages_and_presents_once {A M Elem UI C : Type}
    (tk : Toolkit A M Elem UI C) (s : IcedSurfaceState A C) (now : Nat) :
    let upd := tk.uiUpdate
      (tk.build (tk.view s.iced_app) s.create_viewport.logical_size s.cache)
      (s.input_state.events ++ [.Window (.RedrawRequested now)])
      s.input_state.pointer_pos
    (IcedSurfaceState.render tk s now).2.presents = 1 ∧
    (if upd.2.isEmpty then
       (IcedSurfaceState.render tk s now).2.drawn = upd.1 ∧
       (IcedSurfaceState.render tk s now).1.iced_app = s.iced_app
     else
       (IcedSurfaceState.render tk s now).1.iced_app =
         upd.2.foldl tk.update s.iced_app ∧
       (IcedSurfaceState.render tk s now).2.drawn =
         tk.build (tk.view (upd.2.foldl tk.update s.iced_app))
           s.create_viewport.logical_size (tk.intoCache upd.1)) := by
  refine ⟨rfl, ?_⟩
  unfold IcedSurfaceState.render IcedSurfaceState.update_and_draw
    IcedSurfaceState.collect_events WaylandToIcedInput.take_events
    IcedSurfaceState.get_cursor_position WaylandToIcedInput.get_pointer_position
  dsimp only
  split <;> exact ⟨rfl, rfl⟩

/-- The stored width after `IcedSurfaceState.configure` (helper). -/
theorem configure_fst_width {A M Elem UI C : Type} (tk : Toolkit A M Elem UI C)
    (s : IcedSurfaceState A C) (w h now : Nat) :
    (IcedSurfaceState.configure tk s w h now).1.width = max w 1 := by
  unfold IcedSurfaceState.configure
  dsimp only
  rw [render_fst_width]
  rfl

/-- The stored height after `IcedSurfaceState.configure` (helper). -/
theorem configure_fst_height {A M Elem UI C : Type} (tk : Toolkit A M Elem UI C)
    (s : IcedSurfaceState A C) (w h now : Nat) :
    (IcedSurfaceState.configure tk s w h now).1.height = max h 1 := by
  unfold IcedSurfaceState.configure
  dsimp only
  rw [render_fst_height]
  rfl

/-- C6: on a window-kind configure, an unspecified dimension defaults to 256
and a specified (necessarily non-zero) dimension is adopted verbatim. -/
theorem window_configure_defaults_unspecified_to_256 {A M Elem UI C : Type}
    (tk : Toolkit A M Elem UI C) (w : IcedWindow A C) (ow oh : Option Nat)
    (now : Nat) (hw : ∀ v, ow = some v → 1 ≤ v) (hh : ∀ v, oh = some v → 1 ≤ v) :
    (IcedWindow.configure tk w ⟨(ow, oh)⟩ now).1.surface.width = ow.getD 256 ∧
    (IcedWindow.configure tk w ⟨(ow, oh)⟩ now).1.surface.height = oh.getD 256 := by
  unfold IcedWindow.configure
  dsimp only
  constructor
  · rw [configure_fst_width]
    cases ow with
    | none => rfl
    | some v => have := hw v rfl; simp; omega
  · rw [configure_fst_height]
    cases oh with
    | none => rfl
    | some v => have := hh v rfl; simp; omega

/-- A trivial concrete toolkit instance, for evaluating the container
operations at concrete inputs. -/
def unitToolkit : Toolkit Unit Unit Unit Unit Unit :=
  { view := fun _ => ()
    update := fun _ _ => ()
    build := fun _ _ _ => ()
    uiUpdate := fun _ _ _ => ((), [])
    intoCache := fun _ => ()
    defaultCache := () }

/-- A concrete window container constructed at 256×256. -/
def testWindow : IcedWindow Unit Unit := IcedWindow.new unitToolkit () 256 256

/-- Witness for `window_configure_defaults_unspecified_to_256` at the payload
(width = none, height = some 300): resulting size (256, 300). -/
theorem window_configure_defaults_witness :
    (IcedWindow.configure unitToolkit testWindow ⟨(none, some 300)⟩ 0).1.surface.width
      = 256 ∧
    (IcedWindow.configure unitToolkit testWindow ⟨(none, some 300)⟩ 0).1.surface.height
      = 300 :=
  window_configure_defaults_unspecified_to_256 unitToolkit testWindow none (some 300) 0
    (fun _ hv => nomatch hv) (fun v hv => by injection hv with h; omega)

/-- A concrete popup container constructed at 256×256. -/
def testPopup : IcedPopup Unit Unit := IcedPopup.new unitToolkit () 256 256

/-- C7 counterexample: a popup configure with width = -1 (height = 300) does
not keep the previous stored width 256; the negative dimension is cast
`as u32` and the stored width becomes 4294967295. -/
theorem popup_negative_configure_changes_size :
    testPopup.surface.width = 256 ∧
    (IcedPopup.configure unitToolkit testPopup ⟨-1, 300⟩ 0).1.surface.width
      = 4294967295 ∧
    (4294967295 : Nat) ≠ 256 := by
  refine ⟨rfl, ?_, by decide⟩
  rfl

/-- C7 (amended): a popup configure converts each signed dimension with a
two's-complement `as u32` cast and clamps the result to ≥ 1, so a negative
dimension yields the wrapped value (never the previous size); the operation
is a total function — processing a configure is never fatal. -/
theorem popup_configure_wraps_negative_dims {A M Elem UI C : Type}
    (tk : Toolkit A M Elem UI C) (p : IcedPopup A C) (cw ch : Int) (now : Nat) :
    (IcedPopup.configure tk p ⟨cw, ch⟩ now).1.surface.width
      = max (u32_of_i32 cw) 1 ∧
    (IcedPopup.configure tk p ⟨cw, ch⟩ now).1.surface.height
      = max (u32_of_i32 ch) 1 := by
  unfold IcedPopup.configure
  dsimp only
  exact ⟨configure_fst_width tk p.surface _ _ now, configure_fst_height tk p.surface _ _ now⟩

/-- C10: all four public constructors store the caller-supplied width and
height verbatim (no clamping) — a surface constructed with a zero dimension
keeps it — and a scale-factor change never alters the stored logical size. -/
theorem constructors_store_size_unclamped {A M Elem UI C : Type}
    (tk : Toolkit A M Elem UI C) (app : A) (w h : Nat) (f : Int) (now : Nat)
    (s : IcedSurfaceState A C) :
    (IcedWindow.new tk app w h).surface.width = w ∧
    (IcedWindow.new tk app w h).surface.height = h ∧
    (IcedLayerSurface.new tk app w h).surface.width = w ∧
    (IcedLayerSurface.new tk app w h).surface.height = h ∧
    (IcedPopup.new tk app w h).surface.width = w ∧
    (IcedPopup.new tk app w h).surface.height = h ∧
    (IcedSubsurface.new tk app w h).surface.width = w ∧
    (IcedSubsurface.new tk app w h).surface.height = h ∧
    (IcedSurfaceState.scale_factor_changed tk s f now).1.width = s.width ∧
    (IcedSurfaceState.scale_factor_changed tk s f now).1.height = s.height := by
  refine ⟨rfl, rfl, rfl, rfl, rfl, rfl, rfl, rfl, ?_, ?_⟩ <;>
  · unfold IcedSurfaceState.scale_factor_changed
    dsimp only
    split <;>
      simp [render_fst_width, render_fst_height, IcedSurfaceState.reconfigure_surface]

end EguiSmithay
